import Mathlib

/-!
Shallow embedding of `_states/alkivi_chocolatey.py`, the Salt state module of
the alkivi-sas/salt-chocolatey repository.

Modelling conventions:
  * The provider (`__salt__`) query results `list_sources`, `list_features`
    and `list_features_gui`, together with `__opts__["test"]`, are packaged
    into an `Env`.  A source entry keeps the four raw string fields the code
    reads (`Disabled`, `Self-Service`, `Admin-Only`, `URL: `); a feature
    entry keeps the raw `Enabled` string.
  * Provider mutation calls (add/remove/enable/disable of sources and
    features) are recorded as a trace of `PCall` values; the textual output
    of each call is supplied by `Env.out`.  The listing queries are not
    mutations and are not traced.
  * A Python `raise` terminates the pass; it is modelled as `Except.error`.
    The source raises `CommandExecutionError`, a class the module never
    imports (at runtime Python raises a NameError at the very same program
    point); in either case the pass terminates exceptionally at that site
    with no further provider call.  The embedding labels the raise sites
    with the error taxonomy of the design document: the raise guarded by
    the `Running chocolatey failed` marker is `providerFailure`, the
    feature-not-present raises are `unknownResource`.
  * Each state function returns the `ret` dictionary (or the error) paired
    with the trace of mutation calls it issued.
-/

/-- A source entry as reported by the provider listing: the four raw string
fields the state module reads (`Disabled`, `Self-Service`, `Admin-Only`,
`URL: `), kept exactly as the provider emits them. -/
structure SourceSnapshot where
  disabled : String
  selfService : String
  adminOnly : String
  url : String
  deriving DecidableEq, Repr

/-- A provider mutation call, with the arguments the state module passes. -/
inductive PCall where
  | removeSource (name : String)
  | addSource (name source_location : String) (username password : Option String)
      (allow_self_service admin_only : Bool)
  | enableSource (name : String)
  | disableSource (name : String)
  | enableFeature (name : String)
  | disableFeature (name : String)
  | enableFeatureGui (name : String)
  | disableFeatureGui (name : String)
  deriving DecidableEq, Repr

/-- An exception terminating a reconciliation pass, labelled by the raise
site (see the module docstring above). -/
inductive StateError where
  | providerFailure (msg : String)
  | unknownResource (msg : String)
  deriving DecidableEq, Repr

/-- The `ret` dictionary every state function builds:
`{"name": .., "result": .., "changes": .., "comment": ..}`.  `result` is
`some true` for Salt `True` and `none` for Salt `None`; `changes` is the
(at most one entry) dictionary `{name: message}`. -/
structure StateRet where
  name : String
  result : Option Bool
  changes : List (String × String)
  comment : String
  deriving DecidableEq, Repr

/-- The environment of one reconciliation pass: the provider listings the
module queries, the dry-run flag `__opts__["test"]`, and the textual output
the provider returns for each mutation call. -/
structure Env where
  sources : List (String × SourceSnapshot)
  features : List (String × String)
  featuresGui : List (String × String)
  test : Bool
  out : PCall → String

/-- Whether `needle` matches at the head of `hay`. -/
def charsMatchAt : List Char → List Char → Bool
  | [], _ => true
  | _ :: _, [] => false
  | a :: as, b :: bs => a == b && charsMatchAt as bs

/-- Whether `needle` occurs somewhere inside `hay`. -/
def charsHaveInfix (needle : List Char) : List Char → Bool
  | [] => charsMatchAt needle []
  | b :: bs => charsMatchAt needle (b :: bs) || charsHaveInfix needle bs

/-- Python `needle in hay` on strings: substring containment. -/
def pyIn (needle hay : String) : Bool :=
  charsHaveInfix needle.data hay.data

/-- The `need_changes` dictionary of `source_present`: each key is present
(`some`) exactly when the corresponding `if` of lines 69-81 fired. -/
structure NeedChanges where
  enabled : Option Bool
  allow_self_service : Option Bool
  admin_only : Option Bool
  source_location : Option String
  deriving DecidableEq, Repr

/-- Lines 63-83 of `source_present`: compare the desired descriptor with the
listing and compute `(need_changes, need_to_remove, need_to_create)`.
`need_to_remove` is set by the self-service, admin-only and location
mismatches; the enabled check of line 71 records a change when the desired
`enabled` equals the parsed `Disabled` flag (that is, when they mismatch as
states). -/
def source_diff (sources : List (String × SourceSnapshot)) (name source_location : String)
    (enabled allow_self_service admin_only : Bool) : NeedChanges × Bool × Bool :=
  match List.lookup name sources with
  | some source =>
      ({ enabled := if enabled == (source.disabled == "True") then some enabled else none
       , allow_self_service :=
           if allow_self_service != (source.selfService == "True")
           then some allow_self_service else none
       , admin_only :=
           if admin_only != (source.adminOnly == "True") then some admin_only else none
       , source_location :=
           if source_location != source.url then some source_location else none },
       ((allow_self_service != (source.selfService == "True"))
         || (admin_only != (source.adminOnly == "True"))
         || (source_location != source.url)),
       false)
  | none =>
      ({ enabled := none, allow_self_service := none, admin_only := none,
         source_location := none }, false, true)

/-- `source_present` of `_states/alkivi_chocolatey.py` (lines 27-128). -/
def source_present (env : Env) (name source_location : String) (enabled : Bool)
    (username password : Option String) (allow_self_service admin_only : Bool) :
    Except StateError StateRet × List PCall :=
  let ret : StateRet := { name := name, result := some true, changes := [], comment := "" }
  let ncrc := source_diff env.sources name source_location enabled allow_self_service admin_only
  let need_changes := ncrc.1
  let need_to_remove := ncrc.2.1
  let need_to_create := ncrc.2.2
  let ret :=
    if need_to_remove then
      { ret with changes := [(name, "Will be re-created with correct params")] }
    else
      match need_changes.enabled with
      | some true => { ret with changes := [(name, "Will be enabled.")] }
      | some false => { ret with changes := [(name, "Will be disabled.")] }
      | none => ret
  if env.test then
    (Except.ok { ret with result := none }, [])
  else if need_to_remove then
    let removeCall := PCall.removeSource name
    if pyIn "Running chocolatey failed" (env.out removeCall) then
      (Except.error (StateError.providerFailure "tototo"), [removeCall])
    else
      let addCall := PCall.addSource name source_location username password
        allow_self_service admin_only
      let ret2 := { ret with changes := [(name, "Was recreated.")], comment := env.out addCall }
      (Except.ok ret2, [removeCall, addCall])
  else
    match need_changes.enabled with
    | some true =>
        let c := PCall.enableSource name
        (Except.ok { ret with changes := [(name, "Was enabled.")], comment := env.out c }, [c])
    | some false =>
        let c := PCall.disableSource name
        (Except.ok { ret with changes := [(name, "Was disabled.")], comment := env.out c }, [c])
    | none =>
        if need_to_create then
          let c := PCall.addSource name source_location username password
            allow_self_service admin_only
          (Except.ok { ret with changes := [(name, "Was created.")], comment := env.out c }, [c])
        else
          (Except.ok ret, [])

/-- `source_absent` of `_states/alkivi_chocolatey.py` (lines 130-165). -/
def source_absent (env : Env) (name : String) : Except StateError StateRet × List PCall :=
  let ret : StateRet := { name := name, result := some true, changes := [], comment := "" }
  match List.lookup name env.sources with
  | none => (Except.ok ret, [])
  | some _ =>
      if env.test then
        (Except.ok { ret with result := none, changes := [(name, "Will be removed.")] }, [])
      else
        let c := PCall.removeSource name
        (Except.ok { ret with changes := [(name, "Removed.")], comment := env.out c }, [c])

/-- `feature_disabled` of `_states/alkivi_chocolatey.py` (lines 168-211).
`env.features` maps a feature name to its raw `Enabled` string. -/
def feature_disabled (env : Env) (name : String) : Except StateError StateRet × List PCall :=
  let ret : StateRet := { name := name, result := some true, changes := [], comment := "" }
  match List.lookup name env.features with
  | none => (Except.error (StateError.unknownResource ("Feature " ++ name ++ " not present")), [])
  | some enabledStr =>
      if enabledStr == "False" then
        (Except.ok ret, [])
      else if env.test then
        (Except.ok { ret with result := none, changes := [(name, "Will be removed.")] }, [])
      else
        let c := PCall.disableFeature name
        (Except.ok { ret with changes := [(name, "Disabled.")], comment := env.out c }, [c])

/-- `feature_enabled` of `_states/alkivi_chocolatey.py` (lines 214-257). -/
def feature_enabled (env : Env) (name : String) : Except StateError StateRet × List PCall :=
  let ret : StateRet := { name := name, result := some true, changes := [], comment := "" }
  match List.lookup name env.features with
  | none => (Except.error (StateError.unknownResource ("Feature " ++ name ++ " not present")), [])
  | some enabledStr =>
      if enabledStr == "True" then
        (Except.ok ret, [])
      else if env.test then
        (Except.ok { ret with result := none, changes := [(name, "Will be removed.")] }, [])
      else
        let c := PCall.enableFeature name
        (Except.ok { ret with changes := [(name, "Enabled.")], comment := env.out c }, [c])

/-- `feature_gui_disabled` of `_states/alkivi_chocolatey.py` (lines 259-302). -/
def feature_gui_disabled (env : Env) (name : String) : Except StateError StateRet × List PCall :=
  let ret : StateRet := { name := name, result := some true, changes := [], comment := "" }
  match List.lookup name env.featuresGui with
  | none => (Except.error (StateError.unknownResource ("Feature " ++ name ++ " not present")), [])
  | some enabledStr =>
      if enabledStr == "False" then
        (Except.ok ret, [])
      else if env.test then
        (Except.ok { ret with result := none, changes := [(name, "Will be removed.")] }, [])
      else
        let c := PCall.disableFeatureGui name
        (Except.ok { ret with changes := [(name, "Disabled.")], comment := env.out c }, [c])

/-- `feature_gui_enabled` of `_states/alkivi_chocolatey.py` (lines 304-347). -/
def feature_gui_enabled (env : Env) (name : String) : Except StateError StateRet × List PCall :=
  let ret : StateRet := { name := name, result := some true, changes := [], comment := "" }
  match List.lookup name env.featuresGui with
  | none => (Except.error (StateError.unknownResource ("Feature " ++ name ++ " not present")), [])
  | some enabledStr =>
      if enabledStr == "True" then
        (Except.ok ret, [])
      else if env.test then
        (Except.ok { ret with result := none, changes := [(name, "Will be removed.")] }, [])
      else
        let c := PCall.enableFeatureGui name
        (Except.ok { ret with changes := [(name, "Enabled.")], comment := env.out c }, [c])

/-- A provider whose every mutation call prints nothing. -/
def emptyOut : PCall → String := fun _ => ""

/-- A provider whose every mutation call prints the failure marker. -/
def failOut : PCall → String := fun _ => "Running chocolatey failed"

example : pyIn "Running chocolatey failed" "" = false := by decide
example : pyIn "Running chocolatey failed" "xx Running chocolatey failed yy" = true := by decide

/-- C8: for every desired descriptor whose name is absent from the listing
(and outside dry-run), `source_present` performs a Create: it issues exactly
one provider call, `add_source` with the descriptor's parameters
(name, location, credentials, self-service, admin-only), and no remove,
enable or disable call. -/
theorem C8_create_when_absent (env : Env) (name source_location : String) (enabled : Bool)
    (username password : Option String) (allow_self_service admin_only : Bool)
    (hfind : List.lookup name env.sources = none)
    (htest : env.test = false) :
    source_present env name source_location enabled username password allow_self_service admin_only
      = (Except.ok ⟨name, some true, [(name, "Was created.")],
          env.out (PCall.addSource name source_location username password
            allow_self_service admin_only)⟩,
        [PCall.addSource name source_location username password allow_self_service admin_only]) := by
  simp [source_present, source_diff, hfind, htest]

/-- Snapshot used in the C8 witness: the listing holds only the source
`other`, so the desired name `s` is absent. -/
def envC8 : Env :=
  { sources := [("other", ⟨"False", "False", "False", "https://o"⟩)]
  , features := [], featuresGui := [], test := false, out := emptyOut }

/-- Witness for C8 at a concrete input. -/
theorem C8_create_when_absent_witness :
    source_present envC8 "s" "https://a" true none none false false
      = (Except.ok ⟨"s", some true, [("s", "Was created.")],
          envC8.out (PCall.addSource "s" "https://a" none none false false)⟩,
        [PCall.addSource "s" "https://a" none none false false]) :=
  C8_create_when_absent envC8 "s" "https://a" true none none false false (by decide) rfl

/-- C2: during a recreate outside dry-run, the remove call comes strictly
before the add call: when the remove output contains the marker
`Running chocolatey failed` the pass stops with the provider-failure raise
and the trace holds only the remove call (no add ever issued); when it does
not, the trace is exactly remove followed by add. -/
theorem C2_recreate_remove_before_add (env : Env) (name source_location : String)
    (enabled : Bool) (username password : Option String) (allow_self_service admin_only : Bool)
    (src : SourceSnapshot)
    (hfind : List.lookup name env.sources = some src)
    (hrm : ((allow_self_service != (src.selfService == "True"))
        || (admin_only != (src.adminOnly == "True"))
        || (source_location != src.url)) = true)
    (htest : env.test = false) :
    (pyIn "Running chocolatey failed" (env.out (PCall.removeSource name)) = true →
      source_present env name source_location enabled username password allow_self_service admin_only
        = (Except.error (StateError.providerFailure "tototo"), [PCall.removeSource name]))
    ∧ (pyIn "Running chocolatey failed" (env.out (PCall.removeSource name)) = false →
      (source_present env name source_location enabled username password
          allow_self_service admin_only).2
        = [PCall.removeSource name,
           PCall.addSource name source_location username password allow_self_service admin_only]) := by
  constructor <;> intro hmark <;>
    simp [source_present, source_diff, hfind, htest, hrm, hmark]

/-- Environment for the C2 witness: the desired location differs from the
listed one and every provider call prints the failure marker. -/
def envC2 : Env :=
  { sources := [("s", ⟨"False", "False", "False", "https://b"⟩)]
  , features := [], featuresGui := [], test := false, out := failOut }

/-- Witness for C2 at a concrete input: the failed remove aborts the pass. -/
theorem C2_recreate_remove_before_add_witness :
    source_present envC2 "s" "https://a" true none none false false
      = (Except.error (StateError.providerFailure "tototo"), [PCall.removeSource "s"]) :=
  (C2_recreate_remove_before_add envC2 "s" "https://a" true none none false false
    ⟨"False", "False", "False", "https://b"⟩ (by decide) (by decide) rfl).1 (by decide)

/-- Environment for the C1 counterexample: the source is listed enabled
(`Disabled = "False"`) at location `https://b`, while the desired location is
`https://a`, so a recreate is required. -/
def envC1 : Env :=
  { sources := [("s", ⟨"False", "False", "False", "https://b"⟩)]
  , features := [], featuresGui := [], test := false, out := emptyOut }

/-- C1 counterexample: with desired `enabled = false` the pass records an
enabled mismatch and recreates, yet it issues exactly the same call trace as
with desired `enabled = true` — the add call of the recreate receives no
enabled parameter at all, so it cannot carry the corrected enabled state.
The trace shows the add call's full parameter list: name, location,
credentials, self-service, admin-only, and nothing else. -/
theorem C1_counterexample :
    (source_present envC1 "s" "https://a" false none none false false).2
      = (source_present envC1 "s" "https://a" true none none false false).2
    ∧ (source_present envC1 "s" "https://a" false none none false false).2
      = [PCall.removeSource "s", PCall.addSource "s" "https://a" none none false false] := by
  constructor <;> rfl

/-- C1 amended: for every descriptor present in the listing with a mismatch
in self-service, admin-only or location (with or without the enabled flag
also differing), `source_present` recreates: remove then add, where the add
call carries the corrected location, credentials, self-service and
admin-only values — but not the enabled state, which is not a parameter of
the add call (note the quantified `enabled` does not occur in the trace). -/
theorem C1_amended_recreate_add_params (env : Env) (name source_location : String)
    (enabled : Bool) (username password : Option String) (allow_self_service admin_only : Bool)
    (src : SourceSnapshot)
    (hfind : List.lookup name env.sources = some src)
    (hrm : ((allow_self_service != (src.selfService == "True"))
        || (admin_only != (src.adminOnly == "True"))
        || (source_location != src.url)) = true)
    (htest : env.test = false)
    (hok : pyIn "Running chocolatey failed" (env.out (PCall.removeSource name)) = false) :
    (source_present env name source_location enabled username password
        allow_self_service admin_only).2
      = [PCall.removeSource name,
         PCall.addSource name source_location username password allow_self_service admin_only] := by
  simp [source_present, source_diff, hfind, htest, hrm, hok]

/-- Witness for the amended C1 at a concrete input. -/
theorem C1_amended_recreate_add_params_witness :
    (source_present envC1 "s" "https://c" false none none false false).2
      = [PCall.removeSource "s", PCall.addSource "s" "https://c" none none false false] :=
  C1_amended_recreate_add_params envC1 "s" "https://c" false none none false false
    ⟨"False", "False", "False", "https://b"⟩ (by decide) (by decide) rfl (by decide)

/-- C3: when the listed source matches the desired location, self-service
and admin-only (under the code's `== "True"` parsing) and only the enabled
state differs (line 71: the desired `enabled` equals the parsed `Disabled`
flag), `source_present` outside dry-run issues exactly one call — enable
when the desired value is true, disable when it is false — and never a
remove or add. -/
theorem C3_enabled_only_toggles (env : Env) (name source_location : String) (enabled : Bool)
    (username password : Option String) (allow_self_service admin_only : Bool)
    (src : SourceSnapshot)
    (hfind : List.lookup name env.sources = some src)
    (hloc : (source_location != src.url) = false)
    (hssvc : (allow_self_service != (src.selfService == "True")) = false)
    (haonly : (admin_only != (src.adminOnly == "True")) = false)
    (hen : (enabled == (src.disabled == "True")) = true)
    (htest : env.test = false) :
    source_present env name source_location enabled username password allow_self_service admin_only
      = (Except.ok ⟨name, some true,
          [(name, if enabled then "Was enabled." else "Was disabled.")],
          env.out (if enabled then PCall.enableSource name else PCall.disableSource name)⟩,
        [if enabled then PCall.enableSource name else PCall.disableSource name]) := by
  cases enabled <;>
    simp [source_present, source_diff, hfind, hloc, hssvc, haonly, hen, htest]

/-- Environment for the C3 witness: the source is listed disabled at the
desired location and the descriptor wants it enabled. -/
def envC3 : Env :=
  { sources := [("s", ⟨"True", "False", "False", "https://a"⟩)]
  , features := [], featuresGui := [], test := false, out := emptyOut }

/-- Witness for C3 at a concrete input: only the enable call is issued. -/
theorem C3_enabled_only_toggles_witness :
    source_present envC3 "s" "https://a" true none none false false
      = (Except.ok ⟨"s", some true, [("s", "Was enabled.")],
          envC3.out (PCall.enableSource "s")⟩, [PCall.enableSource "s"]) := by
  have h := C3_enabled_only_toggles envC3 "s" "https://a" true none none false false
    ⟨"True", "False", "False", "https://a"⟩ (by decide) (by decide) (by decide)
    (by decide) (by decide) rfl
  simpa using h

/-- C9: a single pass of `source_present` executes at most one corrective
action: its call trace is one of `[]` (no change, or dry-run), the single
add of a Create, the remove (failed recreate) or remove-then-add of a
Recreate, a single enable, or a single disable — in particular it never
combines a recreate with an enable/disable toggle. -/
theorem C9_single_action (env : Env) (name source_location : String) (enabled : Bool)
    (username password : Option String) (allow_self_service admin_only : Bool) :
    (source_present env name source_location enabled username password
        allow_self_service admin_only).2 = []
    ∨ (source_present env name source_location enabled username password
        allow_self_service admin_only).2
      = [PCall.addSource name source_location username password allow_self_service admin_only]
    ∨ (source_present env name source_location enabled username password
        allow_self_service admin_only).2 = [PCall.removeSource name]
    ∨ (source_present env name source_location enabled username password
        allow_self_service admin_only).2
      = [PCall.removeSource name,
         PCall.addSource name source_location username password allow_self_service admin_only]
    ∨ (source_present env name source_location enabled username password
        allow_self_service admin_only).2 = [PCall.enableSource name]
    ∨ (source_present env name source_location enabled username password
        allow_self_service admin_only).2 = [PCall.disableSource name] := by
  simp only [source_present]
  rcases hd : source_diff env.sources name source_location enabled allow_self_service admin_only
    with ⟨nc, rm, cr⟩
  cases htest : env.test <;> cases rm <;> cases cr <;>
    rcases he : nc.enabled with _ | b <;>
    (try cases b) <;>
    cases hmark : pyIn "Running chocolatey failed" (env.out (PCall.removeSource name)) <;>
    simp [htest, he, hmark]

/-- C4: with the dry-run flag `__opts__["test"]` set, none of the six entry
points issues any provider mutation call: every call trace is empty,
whatever the listings and the computed action. -/
theorem C4_dry_run_no_mutation (env : Env) (name source_location : String) (enabled : Bool)
    (username password : Option String) (allow_self_service admin_only : Bool)
    (htest : env.test = true) :
    (source_present env name source_location enabled username password
        allow_self_service admin_only).2 = []
    ∧ (source_absent env name).2 = []
    ∧ (feature_disabled env name).2 = []
    ∧ (feature_enabled env name).2 = []
    ∧ (feature_gui_disabled env name).2 = []
    ∧ (feature_gui_enabled env name).2 = [] := by
  refine ⟨?_, ?_, ?_, ?_, ?_, ?_⟩
  · simp [source_present, htest]
  · rcases hl : List.lookup name env.sources with _ | s <;> simp [source_absent, hl, htest]
  · rcases hl : List.lookup name env.features with _ | e
    · simp [feature_disabled, hl]
    · cases hc : (e == "False") <;> simp [feature_disabled, hl, hc, htest]
  · rcases hl : List.lookup name env.features with _ | e
    · simp [feature_enabled, hl]
    · cases hc : (e == "True") <;> simp [feature_enabled, hl, hc, htest]
  · rcases hl : List.lookup name env.featuresGui with _ | e
    · simp [feature_gui_disabled, hl]
    · cases hc : (e == "False") <;> simp [feature_gui_disabled, hl, hc, htest]
  · rcases hl : List.lookup name env.featuresGui with _ | e
    · simp [feature_gui_enabled, hl]
    · cases hc : (e == "True") <;> simp [feature_gui_enabled, hl, hc, htest]

/-- Environment for the C4 witness: dry-run with a pending location change
on source `s` and a feature `s` currently enabled, so corrective actions
are computed but must not be executed. -/
def envC4 : Env :=
  { sources := [("s", ⟨"False", "False", "False", "https://b"⟩)]
  , features := [("s", "True")], featuresGui := [("s", "True")]
  , test := true, out := emptyOut }

/-- Witness for C4 at a concrete input. -/
theorem C4_dry_run_no_mutation_witness :
    (source_present envC4 "s" "https://a" true none none false false).2 = []
    ∧ (source_absent envC4 "s").2 = []
    ∧ (feature_disabled envC4 "s").2 = []
    ∧ (feature_enabled envC4 "s").2 = []
    ∧ (feature_gui_disabled envC4 "s").2 = []
    ∧ (feature_gui_enabled envC4 "s").2 = [] :=
  C4_dry_run_no_mutation envC4 "s" "https://a" true none none false false rfl

/-- C6: for a feature name absent from the corresponding listing, each of
the four feature entry points terminates at the feature-not-present raise,
naming the feature, and issues no provider mutation call. -/
theorem C6_unknown_feature (env : Env) (name : String)
    (h1 : List.lookup name env.features = none)
    (h2 : List.lookup name env.featuresGui = none) :
    feature_disabled env name
      = (Except.error (StateError.unknownResource ("Feature " ++ name ++ " not present")), [])
    ∧ feature_enabled env name
      = (Except.error (StateError.unknownResource ("Feature " ++ name ++ " not present")), [])
    ∧ feature_gui_disabled env name
      = (Except.error (StateError.unknownResource ("Feature " ++ name ++ " not present")), [])
    ∧ feature_gui_enabled env name
      = (Except.error (StateError.unknownResource ("Feature " ++ name ++ " not present")), []) := by
  refine ⟨?_, ?_, ?_, ?_⟩ <;>
    simp [feature_disabled, feature_enabled, feature_gui_disabled, feature_gui_enabled, h1, h2]

/-- Environment for the C6 witness: no features listed at all. -/
def envC6 : Env :=
  { sources := [], features := [], featuresGui := [], test := false, out := emptyOut }

/-- Witness for C6 at a concrete input. -/
theorem C6_unknown_feature_witness :
    feature_disabled envC6 "useNuGet"
      = (Except.error (StateError.unknownResource "Feature useNuGet not present"), [])
    ∧ feature_enabled envC6 "useNuGet"
      = (Except.error (StateError.unknownResource "Feature useNuGet not present"), [])
    ∧ feature_gui_disabled envC6 "useNuGet"
      = (Except.error (StateError.unknownResource "Feature useNuGet not present"), [])
    ∧ feature_gui_enabled envC6 "useNuGet"
      = (Except.error (StateError.unknownResource "Feature useNuGet not present"), []) :=
  C6_unknown_feature envC6 "useNuGet" rfl rfl

/-- C10: in dry-run, a `source_present` pass whose four compared fields all
match still returns `result = none` (Salt's pending-change marker) with no
changes, while the no-op cases of `source_absent` (name absent) and of the
four feature entry points (already in the desired state) return
`result = some true` even though the test flag is set, because those
returns happen before the test flag is consulted. -/
theorem C10_noop_result_values (env : Env)
    (sname aname fdname fename gdname gename loc : String) (enabled : Bool)
    (username password : Option String) (allow_self_service admin_only : Bool)
    (src : SourceSnapshot)
    (htest : env.test = true)
    (hfind : List.lookup sname env.sources = some src)
    (hloc : (loc != src.url) = false)
    (hssvc : (allow_self_service != (src.selfService == "True")) = false)
    (haonly : (admin_only != (src.adminOnly == "True")) = false)
    (hen : (enabled == (src.disabled == "True")) = false)
    (habs : List.lookup aname env.sources = none)
    (hfd : List.lookup fdname env.features = some "False")
    (hfe : List.lookup fename env.features = some "True")
    (hgd : List.lookup gdname env.featuresGui = some "False")
    (hge : List.lookup gename env.featuresGui = some "True") :
    source_present env sname loc enabled username password allow_self_service admin_only
      = (Except.ok ⟨sname, none, [], ""⟩, [])
    ∧ source_absent env aname = (Except.ok ⟨aname, some true, [], ""⟩, [])
    ∧ feature_disabled env fdname = (Except.ok ⟨fdname, some true, [], ""⟩, [])
    ∧ feature_enabled env fename = (Except.ok ⟨fename, some true, [], ""⟩, [])
    ∧ feature_gui_disabled env gdname = (Except.ok ⟨gdname, some true, [], ""⟩, [])
    ∧ feature_gui_enabled env gename = (Except.ok ⟨gename, some true, [], ""⟩, []) := by
  refine ⟨?_, ?_, ?_, ?_, ?_, ?_⟩
  · simp [source_present, source_diff, hfind, hloc, hssvc, haonly, hen, htest]
  · simp [source_absent, habs]
  · simp [feature_disabled, hfd]
  · simp [feature_enabled, hfe]
  · simp [feature_gui_disabled, hgd]
  · simp [feature_gui_enabled, hge]

/-- Environment for the C10 witness: source `s` matches the desired state,
`x` is not listed, and the features are already in their desired states. -/
def envC10 : Env :=
  { sources := [("s", ⟨"False", "False", "False", "https://a"⟩)]
  , features := [("fd", "False"), ("fe", "True")]
  , featuresGui := [("gd", "False"), ("ge", "True")]
  , test := true, out := emptyOut }

/-- Witness for C10 at a concrete input. -/
theorem C10_noop_result_values_witness :
    source_present envC10 "s" "https://a" true none none false false
      = (Except.ok ⟨"s", none, [], ""⟩, [])
    ∧ source_absent envC10 "x" = (Except.ok ⟨"x", some true, [], ""⟩, [])
    ∧ feature_disabled envC10 "fd" = (Except.ok ⟨"fd", some true, [], ""⟩, [])
    ∧ feature_enabled envC10 "fe" = (Except.ok ⟨"fe", some true, [], ""⟩, [])
    ∧ feature_gui_disabled envC10 "gd" = (Except.ok ⟨"gd", some true, [], ""⟩, [])
    ∧ feature_gui_enabled envC10 "ge" = (Except.ok ⟨"ge", some true, [], ""⟩, []) :=
  C10_noop_result_values envC10 "s" "x" "fd" "fe" "gd" "ge" "https://a" true none none
    false false ⟨"False", "False", "False", "https://a"⟩ rfl (by decide) (by decide)
    (by decide) (by decide) (by decide) (by decide) (by decide) (by decide) (by decide)
    (by decide)

/-- Environment for the C5 counterexample, non-dry-run half: no sources
listed, so the desired source must be created. -/
def envC5run : Env :=
  { sources := [], features := [], featuresGui := [], test := false, out := emptyOut }

/-- Environment for the C5 counterexample, dry-run half: same empty listing
with the test flag set. -/
def envC5dry : Env :=
  { sources := [], features := [], featuresGui := [], test := true, out := emptyOut }

/-- C5 counterexample: for a source absent from the listing the computed
action is a Create (outside dry-run the same input issues the add call),
yet the dry-run result for that input carries an empty changes dictionary —
the prospective Create is not described, only `result = none` marks it. -/
theorem C5_counterexample :
    (source_present envC5run "s" "https://a" true none none false false).2
      = [PCall.addSource "s" "https://a" none none false false]
    ∧ source_present envC5dry "s" "https://a" true none none false false
      = (Except.ok ⟨"s", none, [], ""⟩, []) := ⟨rfl, rfl⟩

/-- C5 amended: in dry-run, an active action on a source present in the
listing is described and nothing is mutated: a recreate-requiring mismatch
returns the re-create message and an enabled-only mismatch returns the
enable/disable message, both with `result = none` and an empty trace; the
Create action for an absent source is the exception, its dry-run result
carrying empty changes (see the counterexample). -/
theorem C5_amended_dry_run_description (env : Env) (name source_location : String)
    (enabled : Bool) (username password : Option String)
    (allow_self_service admin_only : Bool) (src : SourceSnapshot)
    (htest : env.test = true)
    (hfind : List.lookup name env.sources = some src) :
    (((allow_self_service != (src.selfService == "True"))
        || (admin_only != (src.adminOnly == "True"))
        || (source_location != src.url)) = true →
      source_present env name source_location enabled username password
          allow_self_service admin_only
        = (Except.ok ⟨name, none, [(name, "Will be re-created with correct params")], ""⟩, []))
    ∧ (((allow_self_service != (src.selfService == "True"))
        || (admin_only != (src.adminOnly == "True"))
        || (source_location != src.url)) = false →
      (enabled == (src.disabled == "True")) = true →
      source_present env name source_location enabled username password
          allow_self_service admin_only
        = (Except.ok ⟨name, none,
            [(name, if enabled then "Will be enabled." else "Will be disabled.")], ""⟩, [])) := by
  constructor
  · intro hrm
    simp [source_present, source_diff, hfind, htest, hrm]
  · intro hrm hen
    cases enabled <;> simp_all [source_present, source_diff, hfind, htest]

/-- Environment for the C5 amended witness: the listed location differs
from the desired one and the test flag is set. -/
def envC5w : Env :=
  { sources := [("s", ⟨"False", "False", "False", "https://b"⟩)]
  , features := [], featuresGui := [], test := true, out := emptyOut }

/-- Witness for the amended C5 at a concrete input. -/
theorem C5_amended_dry_run_description_witness :
    source_present envC5w "s" "https://a" true none none false false
      = (Except.ok ⟨"s", none, [("s", "Will be re-created with correct params")], ""⟩, []) :=
  (C5_amended_dry_run_description envC5w "s" "https://a" true none none false false
    ⟨"False", "False", "False", "https://b"⟩ rfl (by decide)).1 (by decide)

/-- Listing entry for the C7 counterexample with `Disabled` spelt `True`. -/
def envC7a : Env :=
  { sources := [("s", ⟨"True", "False", "False", "https://a"⟩)]
  , features := [], featuresGui := [], test := false, out := emptyOut }

/-- The same listing with `Disabled` spelt `true`: the same boolean state
under a different spelling. -/
def envC7b : Env :=
  { sources := [("s", ⟨"true", "False", "False", "https://a"⟩)]
  , features := [], featuresGui := [], test := false, out := emptyOut }

/-- C7 counterexample: two listings encoding the same boolean state
(disabled) with different spellings, `"True"` versus `"true"`, make
`source_present` compute different actions for one and the same desired
descriptor: no call at all versus a disable call.  The comparison is the
raw `== "True"` string test, not a normalization of boolean-like text. -/
theorem C7_counterexample :
    (source_present envC7a "s" "https://a" false none none false false).2 = []
    ∧ (source_present envC7b "s" "https://a" false none none false false).2
      = [PCall.disableSource "s"] := ⟨rfl, rfl⟩

/-- A one-source, one-feature environment, used to state the congruence the
code actually satisfies. -/
def mkEnv (name : String) (s : SourceSnapshot) (e : String) (tst : Bool)
    (f : PCall → String) : Env :=
  { sources := [(name, s)], features := [(name, e)], featuresGui := [(name, e)]
  , test := tst, out := f }

/-- C7 amended: boolean-like provider strings are turned into booleans by
the exact, case-sensitive comparisons `== "True"` (sources), and
`== "True"` / `== "False"` (features).  Two listings that agree under those
exact comparisons (and on the location) make every entry point compute the
same output; listings that spell the same boolean differently (for example
`"true"` for `"True"`) need not (see the counterexample). -/
theorem C7_amended_exact_comparison_congruence (s1 s2 : SourceSnapshot) (e1 e2 : String)
    (tst : Bool) (f : PCall → String) (name source_location : String) (enabled : Bool)
    (username password : Option String) (allow_self_service admin_only : Bool)
    (hdis : (s1.disabled == "True") = (s2.disabled == "True"))
    (hssvc : (s1.selfService == "True") = (s2.selfService == "True"))
    (haonly : (s1.adminOnly == "True") = (s2.adminOnly == "True"))
    (hurl : s1.url = s2.url)
    (heT : (e1 == "True") = (e2 == "True"))
    (heF : (e1 == "False") = (e2 == "False")) :
    source_present (mkEnv name s1 e1 tst f) name source_location enabled username password
        allow_self_service admin_only
      = source_present (mkEnv name s2 e2 tst f) name source_location enabled username password
        allow_self_service admin_only
    ∧ feature_disabled (mkEnv name s1 e1 tst f) name
      = feature_disabled (mkEnv name s2 e2 tst f) name
    ∧ feature_enabled (mkEnv name s1 e1 tst f) name
      = feature_enabled (mkEnv name s2 e2 tst f) name
    ∧ feature_gui_disabled (mkEnv name s1 e1 tst f) name
      = feature_gui_disabled (mkEnv name s2 e2 tst f) name
    ∧ feature_gui_enabled (mkEnv name s1 e1 tst f) name
      = feature_gui_enabled (mkEnv name s2 e2 tst f) name := by
  refine ⟨?_, ?_, ?_, ?_, ?_⟩
  · simp [source_present, source_diff, mkEnv, hdis, hssvc, haonly, hurl]
  · simp [feature_disabled, mkEnv, heF]
  · simp [feature_enabled, mkEnv, heT]
  · simp [feature_gui_disabled, mkEnv, heF]
  · simp [feature_gui_enabled, mkEnv, heT]

/-- Witness for the amended C7 at concrete inputs: the two listings agree
under the exact comparisons without being equal as strings. -/
theorem C7_amended_exact_comparison_congruence_witness :
    source_present (mkEnv "s" ⟨"True", "False", "False", "https://a"⟩ "off" false emptyOut)
        "s" "https://a" false none none false false
      = source_present (mkEnv "s" ⟨"True", "FALSE", "not", "https://a"⟩ "nah" false emptyOut)
        "s" "https://a" false none none false false
    ∧ feature_disabled (mkEnv "s" ⟨"True", "False", "False", "https://a"⟩ "off" false emptyOut) "s"
      = feature_disabled (mkEnv "s" ⟨"True", "FALSE", "not", "https://a"⟩ "nah" false emptyOut) "s"
    ∧ feature_enabled (mkEnv "s" ⟨"True", "False", "False", "https://a"⟩ "off" false emptyOut) "s"
      = feature_enabled (mkEnv "s" ⟨"True", "FALSE", "not", "https://a"⟩ "nah" false emptyOut) "s"
    ∧ feature_gui_disabled (mkEnv "s" ⟨"True", "False", "False", "https://a"⟩ "off" false emptyOut) "s"
      = feature_gui_disabled (mkEnv "s" ⟨"True", "FALSE", "not", "https://a"⟩ "nah" false emptyOut) "s"
    ∧ feature_gui_enabled (mkEnv "s" ⟨"True", "False", "False", "https://a"⟩ "off" false emptyOut) "s"
      = feature_gui_enabled (mkEnv "s" ⟨"True", "FALSE", "not", "https://a"⟩ "nah" false emptyOut) "s" :=
  C7_amended_exact_comparison_congruence ⟨"True", "False", "False", "https://a"⟩
    ⟨"True", "FALSE", "not", "https://a"⟩ "off" "nah" false emptyOut "s" "https://a" false
    none none false false (by decide) (by decide) (by decide) (by decide) (by decide) (by decide)
